import Mathlib

/-!
Shallow embedding of `sgp30.py` (micropython-sgp30), a driver for the SGP30
gas sensor over I2C, together with a reference model of its wire-format
specification.  Machine bytes and 16-bit words are modelled as `Nat` with
explicit masking where the source masks; the I2C bus is modelled as a trace
of bus operations (writes, sleeps, reads) plus the byte sequence the bus
supplies for a read.  Delays are recorded in milliseconds (the source passes
seconds as floats: 0.01 s = 10 ms, 0.05 s = 50 ms).  Fallible paths
(`raise RuntimeError(...)`) are modelled with `Except String`.
-/

/-- Source constant `_SGP30_DEFAULT_I2C_ADDR = const(0x58)`. -/
def _SGP30_DEFAULT_I2C_ADDR : Nat := 0x58

/-- Source constant `_SGP30_FEATURESET = const(0x0020)`. -/
def _SGP30_FEATURESET : Nat := 0x0020

/-- Source constant `_SGP30_CRC8_POLYNOMIAL = const(0x31)`. -/
def _SGP30_CRC8_POLYNOMIAL : Nat := 0x31

/-- Source constant `_SGP30_CRC8_INIT = const(0xFF)`. -/
def _SGP30_CRC8_INIT : Nat := 0xFF

/-- Source constant `_SGP30_WORD_LEN = const(2)`. -/
def _SGP30_WORD_LEN : Nat := 2

/-- One iteration of the inner `for _ in range(8)` loop of `generate_crc`:
`if crc & 0x80: crc = (crc << 1) ^ _SGP30_CRC8_POLYNOMIAL else: crc <<= 1`.
As in the Python source, no mask is applied here; `crc` may grow beyond 8 bits. -/
def crcRound (crc : Nat) : Nat :=
  if crc &&& 0x80 ≠ 0 then (crc <<< 1) ^^^ _SGP30_CRC8_POLYNOMIAL else crc <<< 1

/-- Iterate `crcRound` a number `n` of times (the source runs exactly 8 per data byte). -/
def crcRounds : Nat → Nat → Nat
  | 0, crc => crc
  | n + 1, crc => crcRounds n (crcRound crc)

/-- Embedding of `generate_crc(data)` from `sgp30.py`: start from
`_SGP30_CRC8_INIT`, per byte do `crc ^= byte` then 8 unmasked shift rounds,
and mask to 8 bits only once, at the return (`return crc & 0xFF`). -/
def generate_crc (data : List Nat) : Nat :=
  (data.foldl (fun crc b => crcRounds 8 (crc ^^^ b)) _SGP30_CRC8_INIT) &&& 0xFF

/-- Modelled from the spec (reference CRC-8 of section 4.1): one shift step
in which the crc is masked to 8 bits after every shift
(`crc = (crc << 1) XOR 0x31, masked to 8 bits`). -/
def crcRoundSpec (crc : Nat) : Nat :=
  if crc &&& 0x80 ≠ 0 then ((crc <<< 1) ^^^ 0x31) &&& 0xFF else (crc <<< 1) &&& 0xFF

/-- Iterate the per-step-masked reference shift step `n` times. -/
def crcRoundsSpec : Nat → Nat → Nat
  | 0, crc => crc
  | n + 1, crc => crcRoundsSpec n (crcRoundSpec crc)

/-- Modelled from the spec: the reference `compute_checksum` of section 4.1
(CRC-8, polynomial 0x31, initial value 0xFF, 8-bit width, no reflection,
no final XOR, crc masked to 8 bits after every shift step). -/
def crc8_spec (data : List Nat) : Nat :=
  data.foldl (fun crc b => crcRoundsSpec 8 (crc ^^^ b)) 0xFF

/-- One observable interaction with the I2C bus collaborator:
`i2c.writeto(addr, bytes)`, `time.sleep(ms)` (in milliseconds), or
`i2c.readfrom_into(addr, buf)` reading `count` bytes. -/
inductive BusOp where
  | write (addr : Nat) (bytes : List Nat)
  | sleep (ms : Nat)
  | read (addr : Nat) (count : Nat)
deriving Repr, DecidableEq

/-- The per-word decode loop of `_i2c_read_words_from_cmd`
(`for i in range(reply_size): word = [crc_result[3*i], crc_result[3*i+1]];
crc = crc_result[3*i+2]; if generate_crc(word) != crc: raise
RuntimeError('CRC Error'); result.append(word[0] << 8 | word[1])`),
consuming the reply bytes three at a time.  Running out of bytes before
`reply_size` words are decoded corresponds to the bus collaborator failing
the exact-size read (a transport error). -/
def decodeWords : List Nat → Nat → Except String (List Nat)
  | _, 0 => Except.ok []
  | b0 :: b1 :: c :: rest, n + 1 =>
    if generate_crc [b0, b1] ≠ c then Except.error "CRC Error"
    else
      match decodeWords rest n with
      | Except.ok ws => Except.ok (((b0 <<< 8) ||| b1) :: ws)
      | Except.error e => Except.error e
  | _, _ + 1 => Except.error "short read"

/-- Embedding of `SGP30._i2c_read_words_from_cmd(command, delay, reply_size)`.
`reply` is the byte sequence the bus supplies for the read.  The first
component is the trace of bus operations performed; the second is the
returned value (`none` models Python's `None` when `reply_size` is 0). -/
def read_words_from_cmd (addr : Nat) (command : List Nat) (delayMs : Nat)
    (replySize : Nat) (reply : List Nat) :
    List BusOp × Except String (Option (List Nat)) :=
  if replySize = 0 then
    ([BusOp.write addr command, BusOp.sleep delayMs], Except.ok none)
  else
    ([BusOp.write addr command, BusOp.sleep delayMs,
      BusOp.read addr (replySize * (_SGP30_WORD_LEN + 1))],
     match decodeWords reply replySize with
     | Except.ok ws => Except.ok (some ws)
     | Except.error e => Except.error e)

/-- Encoding of one payload word in the `iaq_baseline` setter:
`arr = [value >> 8, value & 0xFF]; arr.append(generate_crc(arr))`. -/
def encodeWord (value : Nat) : List Nat :=
  [value >>> 8, value &&& 0xFF, generate_crc [value >>> 8, value &&& 0xFF]]

/-- The attributes `SGP30.__init__` (and every other method of the class)
ever assigns on `self`: `self._i2c`, `self._addr`, `self.serial`. -/
def sgp30_instance_attributes : List String := ["_i2c", "_addr", "serial"]

/-- The state an `SGP30` instance carries after construction: the bus address
(`self._addr`) and the serial words (`self.serial`, the value returned by
`_i2c_read_words_from_cmd([0x36, 0x82], 0.01, 3)`).  The bus object
`self._i2c` is the external collaborator and is represented by the traces. -/
structure SGP30State where
  addr : Nat
  serial : Option (List Nat)
deriving Repr, DecidableEq

/-- Embedding of `SGP30.__init__`: read 3 serial words from command
`[0x36, 0x82]`, read 1 feature-set word from `[0x20, 0x2f]`, raise
`RuntimeError('SGP30 Not detected')` unless it equals `_SGP30_FEATURESET`,
then run `initalise_indoor_air_quality` (`[0x20, 0x03]`, no reply, 10 ms).
`serialReply` and `featuresetReply` are the bytes the bus supplies for the
two reads. -/
def sgp30_init (addr : Nat) (serialReply featuresetReply : List Nat) :
    List BusOp × Except String SGP30State :=
  let s := read_words_from_cmd addr [0x36, 0x82] 10 3 serialReply
  match s.2 with
  | Except.error e => (s.1, Except.error e)
  | Except.ok serialRes =>
    let f := read_words_from_cmd addr [0x20, 0x2f] 10 1 featuresetReply
    match f.2 with
    | Except.error e => (s.1 ++ f.1, Except.error e)
    | Except.ok none => (s.1 ++ f.1, Except.error "TypeError")
    | Except.ok (some featureset) =>
      if featureset.headD 0 ≠ _SGP30_FEATURESET then
        (s.1 ++ f.1, Except.error "SGP30 Not detected")
      else
        let i := read_words_from_cmd addr [0x20, 0x03] 10 0 []
        (s.1 ++ f.1 ++ i.1, Except.ok { addr := addr, serial := serialRes })

/-- Embedding of `SGP30.iaq_measure`: profile `["iaq_measure", [0x20, 0x08],
2, 0.05]`, i.e. command `[0x20, 0x08]`, 50 ms delay, 2 reply words. -/
def iaq_measure (addr : Nat) (reply : List Nat) :
    List BusOp × Except String (Option (List Nat)) :=
  read_words_from_cmd addr [0x20, 0x08] 50 2 reply

/-- Embedding of the `SGP30.iaq_baseline` getter: profile
`["iaq_get_baseline", [0x20, 0x15], 2, 0.01]`. -/
def get_iaq_baseline (addr : Nat) (reply : List Nat) :
    List BusOp × Except String (Option (List Nat)) :=
  read_words_from_cmd addr [0x20, 0x15] 10 2 reply

/-- Embedding of the `SGP30.iaq_baseline` setter: raise
`RuntimeError('Invalid baseline')` when both arguments are 0 (before any bus
traffic), otherwise build the payload word-by-word over
`[total_volatile_organic_compounds, co2_equivalent]` and run profile
`["iaq_set_baseline", [0x20, 0x1e] + buffer, 0, 0.01]`. -/
def set_iaq_baseline (addr co2_equivalent total_volatile_organic_compounds : Nat) :
    List BusOp × Except String (Option (List Nat)) :=
  if co2_equivalent = 0 ∧ total_volatile_organic_compounds = 0 then
    ([], Except.error "Invalid baseline")
  else
    let buffer := encodeWord total_volatile_organic_compounds ++ encodeWord co2_equivalent
    read_words_from_cmd addr ([0x20, 0x1e] ++ buffer) 10 0 []

/-- Embedding of the `SGP30.co2_equivalent` property:
`return self.iaq_measure()[0]`. -/
def co2_equivalent (addr : Nat) (reply : List Nat) : Except String Nat :=
  match (iaq_measure addr reply).2 with
  | Except.ok r => Except.ok ((r.getD []).getD 0 0)
  | Except.error e => Except.error e

/-- Embedding of the `SGP30.tvoc` property: `return self.iaq_measure()[1]`. -/
def tvoc (addr : Nat) (reply : List Nat) : Except String Nat :=
  match (iaq_measure addr reply).2 with
  | Except.ok r => Except.ok ((r.getD []).getD 1 0)
  | Except.error e => Except.error e

/-! ### Helper lemmas: the once-at-return mask agrees with per-step masking -/

lemma and_255_eq_mod (a : Nat) : a &&& 255 = a % 256 := by
  have h := Nat.and_pow_two_sub_one_eq_mod a 8
  norm_num at h
  exact h

lemma shiftLeft_one_and_255 (c : Nat) : (c <<< 1) &&& 255 = ((c &&& 255) <<< 1) &&& 255 := by
  simp only [Nat.shiftLeft_eq, and_255_eq_mod, pow_one]
  omega

lemma and_255_and_128 (c : Nat) : (c &&& 255) &&& 128 = c &&& 128 := by
  rw [Nat.land_assoc, show (255 : Nat) &&& 128 = 128 from rfl]

lemma crcRound_and_255 (c : Nat) : crcRound c &&& 255 = crcRoundSpec (c &&& 255) := by
  unfold crcRound crcRoundSpec _SGP30_CRC8_POLYNOMIAL
  rw [show (0x80 : Nat) = 128 from rfl, show (0xFF : Nat) = 255 from rfl, and_255_and_128]
  by_cases h : c &&& 128 = 0
  · simp only [h, ne_eq, not_true_eq_false, if_false]
    exact shiftLeft_one_and_255 c
  · simp only [h, ne_eq, not_false_eq_true, if_true]
    rw [Nat.and_xor_distrib_right, Nat.and_xor_distrib_right, shiftLeft_one_and_255]

lemma crcRounds_and_255 (n : Nat) :
    ∀ c, crcRounds n c &&& 255 = crcRoundsSpec n (c &&& 255) := by
  induction n with
  | zero => intro c; rfl
  | succ n ih =>
    intro c
    show crcRounds n (crcRound c) &&& 255 = crcRoundsSpec n (crcRoundSpec (c &&& 255))
    rw [ih, crcRound_and_255]

lemma crcByte_and_255 (c b : Nat) (hb : b < 256) :
    crcRounds 8 (c ^^^ b) &&& 255 = crcRoundsSpec 8 ((c &&& 255) ^^^ b) := by
  rw [crcRounds_and_255]
  congr 1
  rw [Nat.and_xor_distrib_right, and_255_eq_mod b, Nat.mod_eq_of_lt hb]

lemma crcFold_and_255 (data : List Nat) :
    ∀ c, (∀ b ∈ data, b < 256) →
      (data.foldl (fun crc b => crcRounds 8 (crc ^^^ b)) c) &&& 255 =
      data.foldl (fun crc b => crcRoundsSpec 8 (crc ^^^ b)) (c &&& 255) := by
  induction data with
  | nil => intro c _; rfl
  | cons b l ih =>
    intro c h
    simp only [List.foldl_cons]
    rw [ih _ (fun x hx => h x (List.mem_cons_of_mem _ hx)),
      crcByte_and_255 _ _ (h b (List.mem_cons_self _ _))]

/-- C1: for every sequence of 8-bit bytes, `generate_crc` (which masks the
crc to 8 bits only once, at the return) computes the same value as the
reference CRC-8 `crc8_spec` of the spec (polynomial 0x31, initial value
0xFF, 8-bit width, no reflection, no final XOR, crc masked to 8 bits after
every shift step); in particular the result is always in 0..255. -/
theorem generate_crc_eq_crc8_spec (data : List Nat) (h : ∀ b ∈ data, b < 256) :
    generate_crc data = crc8_spec data ∧ generate_crc data ≤ 255 := by
  constructor
  · show (data.foldl (fun crc b => crcRounds 8 (crc ^^^ b)) _SGP30_CRC8_INIT) &&& 0xFF =
      crc8_spec data
    rw [crcFold_and_255 data _SGP30_CRC8_INIT h]
    rfl
  · exact Nat.and_le_right

/-- Witness for C1 at the concrete byte sequence `[0xBE, 0xEF]`. -/
theorem generate_crc_eq_crc8_spec_witness :
    (∀ b ∈ [0xBE, 0xEF], b < 256) ∧
      (generate_crc [0xBE, 0xEF] = crc8_spec [0xBE, 0xEF] ∧
        generate_crc [0xBE, 0xEF] ≤ 255) :=
  ⟨by decide, generate_crc_eq_crc8_spec [0xBE, 0xEF] (by decide)⟩

/-- C8: `generate_crc` applied to the two-byte sequence `[0xBE, 0xEF]`
returns exactly `0x92`. -/
theorem generate_crc_beef : generate_crc [0xBE, 0xEF] = 0x92 := by decide

/-- C10: `generate_crc` applied to the empty byte sequence returns the
initial value `0xFF`: the loop body never runs, so the checksum of no data
is the CRC initial value (masked at return, which leaves `0xFF` unchanged). -/
theorem generate_crc_nil : generate_crc [] = 0xFF := by decide

/-! ### Helper lemmas: big-endian split and recombination of a word -/

lemma shiftRight_shiftLeft_or_and (w : Nat) :
    ((w >>> 8) <<< 8) ||| (w &&& 0xFF) = w := by
  apply Nat.eq_of_testBit_eq
  intro i
  rw [Nat.testBit_lor, Nat.testBit_shiftLeft, Nat.testBit_and]
  by_cases hi : 8 ≤ i
  · rw [Nat.testBit_shiftRight]
    have h1 : 8 + (i - 8) = i := by omega
    have h2 : (0xFF : Nat).testBit i = false := by
      rw [show (0xFF : Nat) = 2 ^ 8 - 1 from rfl, Nat.testBit_two_pow_sub_one]
      simp [hi]
    simp [hi, h1, h2]
  · have h2 : (0xFF : Nat).testBit i = true := by
      rw [show (0xFF : Nat) = 2 ^ 8 - 1 from rfl, Nat.testBit_two_pow_sub_one]
      simpa using hi
    simp [hi, h2]

lemma decodeWords_encodeWord (w : Nat) (rest : List Nat) (n : Nat) :
    decodeWords (encodeWord w ++ rest) (n + 1) =
      match decodeWords rest n with
      | Except.ok ws => Except.ok (w :: ws)
      | Except.error e => Except.error e := by
  show (if generate_crc [w >>> 8, w &&& 0xFF] ≠ generate_crc [w >>> 8, w &&& 0xFF]
      then Except.error "CRC Error"
      else match decodeWords rest n with
        | Except.ok ws => Except.ok ((((w >>> 8) <<< 8) ||| (w &&& 0xFF)) :: ws)
        | Except.error e => Except.error e) = _
  rw [if_neg (by simp), shiftRight_shiftLeft_or_and]

/-- C3: for every 16-bit value `w`, encoding `w` as two big-endian bytes plus
`generate_crc` of those bytes, then decoding that 3-byte triple via the
reply-parsing rule (checksum verification, then `word[0] << 8 | word[1]`),
succeeds and yields `w` again. -/
theorem encode_decode_roundtrip (w : Nat) (h : w < 65536) :
    decodeWords (encodeWord w) 1 = Except.ok [w] := by
  have h1 := decodeWords_encodeWord w [] 0
  simpa using h1

/-- Witness for C3 at the concrete word `0xBEEF`. -/
theorem encode_decode_roundtrip_witness :
    (0xBEEF : Nat) < 65536 ∧ decodeWords (encodeWord 0xBEEF) 1 = Except.ok [0xBEEF] :=
  ⟨by decide, encode_decode_roundtrip 0xBEEF (by decide)⟩

/-! ### Helper lemma: any bad word checksum fails the whole decode -/

lemma getD_cons_cons_cons (a b c : Nat) (l : List Nat) (k : Nat) :
    (a :: b :: c :: l).getD (k + 3) 0 = l.getD k 0 := by
  rw [show k + 3 = k + 1 + 1 + 1 from by omega]
  simp only [List.getD_cons_succ]

lemma decodeWords_error_of_bad_crc :
    ∀ (n i : Nat) (reply : List Nat), reply.length = 3 * n → i < n →
      generate_crc [reply.getD (3 * i) 0, reply.getD (3 * i + 1) 0] ≠
        reply.getD (3 * i + 2) 0 →
      decodeWords reply n = Except.error "CRC Error" := by
  intro n
  induction n with
  | zero => intro i reply _ hi _; omega
  | succ n ih =>
    intro i reply hlen hi hbad
    cases reply with
    | nil => simp at hlen
    | cons b0 t0 =>
      cases t0 with
      | nil => simp at hlen; omega
      | cons b1 t1 =>
        cases t1 with
        | nil => simp at hlen; omega
        | cons c rest =>
          show (if generate_crc [b0, b1] ≠ c then Except.error "CRC Error"
            else match decodeWords rest n with
              | Except.ok ws => Except.ok (((b0 <<< 8) ||| b1) :: ws)
              | Except.error e => Except.error e) = Except.error "CRC Error"
          by_cases hc : generate_crc [b0, b1] = c
          · cases i with
            | zero =>
              simp only [Nat.mul_zero, List.getD_cons_zero, Nat.zero_add,
                List.getD_cons_succ] at hbad
              exact absurd hc hbad
            | succ j =>
              rw [if_neg (by simpa using hc)]
              have hrest : rest.length = 3 * n := by
                simp only [List.length_cons] at hlen; omega
              have hj : j < n := by omega
              have g0 : (b0 :: b1 :: c :: rest).getD (3 * (j + 1)) 0 = rest.getD (3 * j) 0 := by
                rw [show 3 * (j + 1) = 3 * j + 3 from by ring, getD_cons_cons_cons]
              have g1 : (b0 :: b1 :: c :: rest).getD (3 * (j + 1) + 1) 0 =
                  rest.getD (3 * j + 1) 0 := by
                rw [show 3 * (j + 1) + 1 = (3 * j + 1) + 3 from by ring, getD_cons_cons_cons]
              have g2 : (b0 :: b1 :: c :: rest).getD (3 * (j + 1) + 2) 0 =
                  rest.getD (3 * j + 2) 0 := by
                rw [show 3 * (j + 1) + 2 = (3 * j + 2) + 3 from by ring, getD_cons_cons_cons]
              rw [g0, g1, g2] at hbad
              rw [ih j rest hrest hj hbad]
          · rw [if_pos hc]

/-- C2: if any reply word's recomputed checksum disagrees with its received
checksum byte, the whole read transaction fails with the checksum-mismatch
error `CRC Error` and returns no partial result: no prefix of decoded words
is ever returned to the caller. -/
theorem read_transaction_all_or_nothing (addr : Nat) (command : List Nat)
    (delayMs : Nat) (n i : Nat) (reply : List Nat)
    (hlen : reply.length = 3 * n) (hi : i < n)
    (hbad : generate_crc [reply.getD (3 * i) 0, reply.getD (3 * i + 1) 0] ≠
      reply.getD (3 * i + 2) 0) :
    (read_words_from_cmd addr command delayMs n reply).2 = Except.error "CRC Error" := by
  have hn : ¬ n = 0 := by omega
  unfold read_words_from_cmd
  rw [if_neg hn]
  show (match decodeWords reply n with
    | Except.ok ws => Except.ok (some ws)
    | Except.error e => Except.error e) = Except.error "CRC Error"
  rw [decodeWords_error_of_bad_crc n i reply hlen hi hbad]

/-- Witness for C2: a measure-IAQ read (command `[0x20, 0x08]`, 50 ms, 2
words) whose second word carries a corrupted checksum byte fails whole, even
though the first word's checksum is valid. -/
theorem read_transaction_all_or_nothing_witness :
    ([0x00, 0x12, generate_crc [0x00, 0x12], 0x00, 0x34, 0x00] : List Nat).length = 3 * 2 ∧
    1 < 2 ∧
    generate_crc [([0x00, 0x12, generate_crc [0x00, 0x12], 0x00, 0x34, 0x00] : List Nat).getD (3 * 1) 0,
        ([0x00, 0x12, generate_crc [0x00, 0x12], 0x00, 0x34, 0x00] : List Nat).getD (3 * 1 + 1) 0] ≠
      ([0x00, 0x12, generate_crc [0x00, 0x12], 0x00, 0x34, 0x00] : List Nat).getD (3 * 1 + 2) 0 ∧
    (read_words_from_cmd 0x58 [0x20, 0x08] 50 2
      [0x00, 0x12, generate_crc [0x00, 0x12], 0x00, 0x34, 0x00]).2 = Except.error "CRC Error" :=
  ⟨by decide, by decide, by decide,
    read_transaction_all_or_nothing 0x58 [0x20, 0x08] 50 2 1
      [0x00, 0x12, generate_crc [0x00, 0x12], 0x00, 0x34, 0x00]
      (by decide) (by decide) (by decide)⟩

/-! ### Helper lemmas: decoding well-formed replies -/

lemma decodeWords_encode_single (w : Nat) :
    decodeWords (encodeWord w) 1 = Except.ok [w] := by
  have h1 := decodeWords_encodeWord w [] 0
  simpa using h1

lemma decodeWords_encode_pair (a b : Nat) :
    decodeWords (encodeWord a ++ encodeWord b) 2 = Except.ok [a, b] := by
  rw [decodeWords_encodeWord a (encodeWord b) 1, decodeWords_encode_single b]

/-- C4: during construction, if the feature-set word read back after command
`[0x20, 0x2F]` is any value other than `0x0020`, construction fails with the
device-not-detected error and no usable handle is produced; the
IAQ-initialization command `[0x20, 0x03]` is never written to the bus. -/
theorem sgp30_init_wrong_featureset (addr : Nat) (serialReply featuresetReply : List Nat)
    (sr : List Nat) (w : Nat)
    (hs : decodeWords serialReply 3 = Except.ok sr)
    (hf : decodeWords featuresetReply 1 = Except.ok [w])
    (hw : w ≠ 0x0020) :
    (sgp30_init addr serialReply featuresetReply).2 = Except.error "SGP30 Not detected" ∧
    BusOp.write addr [0x20, 0x03] ∉ (sgp30_init addr serialReply featuresetReply).1 := by
  have hres : sgp30_init addr serialReply featuresetReply =
      ([BusOp.write addr [0x36, 0x82], BusOp.sleep 10, BusOp.read addr 9,
        BusOp.write addr [0x20, 0x2f], BusOp.sleep 10, BusOp.read addr 3],
       Except.error "SGP30 Not detected") := by
    simp [sgp30_init, read_words_from_cmd, hs, hf, hw, _SGP30_FEATURESET, _SGP30_WORD_LEN]
  rw [hres]
  refine ⟨rfl, ?_⟩
  simp

/-- Witness for C4: a simulated bus whose feature-set reply encodes the word
0 (with a valid checksum) makes construction fail before IAQ initialization. -/
theorem sgp30_init_wrong_featureset_witness :
    decodeWords (encodeWord 0 ++ encodeWord 0 ++ encodeWord 0) 3 = Except.ok [0, 0, 0] ∧
    decodeWords (encodeWord 0) 1 = Except.ok [0] ∧
    (0 : Nat) ≠ 0x0020 ∧
    ((sgp30_init 0x58 (encodeWord 0 ++ encodeWord 0 ++ encodeWord 0) (encodeWord 0)).2 =
        Except.error "SGP30 Not detected" ∧
      BusOp.write 0x58 [0x20, 0x03] ∉
        (sgp30_init 0x58 (encodeWord 0 ++ encodeWord 0 ++ encodeWord 0) (encodeWord 0)).1) :=
  ⟨rfl, rfl, by decide,
    sgp30_init_wrong_featureset 0x58 _ _ [0, 0, 0] 0 rfl rfl (by decide)⟩

/-- C5: calling the baseline setter with the pair `(0, 0)` raises the
invalid-baseline error before any bus traffic occurs (the bus trace is
empty); for every pair with at least one nonzero value the check passes and
the command is transmitted. -/
theorem set_iaq_baseline_zero_guard (addr : Nat) :
    set_iaq_baseline addr 0 0 = ([], Except.error "Invalid baseline") ∧
    ∀ c t : Nat, (c ≠ 0 ∨ t ≠ 0) →
      set_iaq_baseline addr c t =
        ([BusOp.write addr ([0x20, 0x1e] ++ encodeWord t ++ encodeWord c),
          BusOp.sleep 10], Except.ok none) := by
  refine ⟨rfl, ?_⟩
  intro c t h
  unfold set_iaq_baseline
  rw [if_neg (by tauto)]
  unfold read_words_from_cmd
  rw [if_pos rfl]
  simp [List.append_assoc]

/-- Witness for C5: the pair `(0x8973, 0x8AAE)` has a nonzero component and
is transmitted; `(0, 0)` is rejected with an empty bus trace. -/
theorem set_iaq_baseline_zero_guard_witness :
    set_iaq_baseline 0x58 0 0 = ([], Except.error "Invalid baseline") ∧
    ((0x8973 : Nat) ≠ 0 ∨ (0x8AAE : Nat) ≠ 0) ∧
    set_iaq_baseline 0x58 0x8973 0x8AAE =
      ([BusOp.write 0x58 ([0x20, 0x1e] ++ encodeWord 0x8AAE ++ encodeWord 0x8973),
        BusOp.sleep 10], Except.ok none) :=
  ⟨(set_iaq_baseline_zero_guard 0x58).1, by decide,
    (set_iaq_baseline_zero_guard 0x58).2 0x8973 0x8AAE (by decide)⟩

/-- C6: the measure-IAQ operation writes exactly the opcode bytes
`[0x20, 0x08]`, sleeps 50 ms, reads exactly 6 bytes (2 reply words of 2 data
bytes plus 1 checksum byte each), and on success returns a 2-element
sequence whose first element is the CO2-equivalent value (the
`co2_equivalent` accessor) and whose second is the TVOC value (the `tvoc`
accessor). -/
theorem iaq_measure_protocol (addr a b : Nat) (ha : a < 65536) (hb : b < 65536) :
    iaq_measure addr (encodeWord a ++ encodeWord b) =
      ([BusOp.write addr [0x20, 0x08], BusOp.sleep 50, BusOp.read addr 6],
        Except.ok (some [a, b])) ∧
    co2_equivalent addr (encodeWord a ++ encodeWord b) = Except.ok a ∧
    tvoc addr (encodeWord a ++ encodeWord b) = Except.ok b := by
  have hm : iaq_measure addr (encodeWord a ++ encodeWord b) =
      ([BusOp.write addr [0x20, 0x08], BusOp.sleep 50, BusOp.read addr 6],
        Except.ok (some [a, b])) := by
    unfold iaq_measure read_words_from_cmd
    rw [if_neg (by omega), decodeWords_encode_pair]
    rfl
  refine ⟨hm, ?_, ?_⟩
  · unfold co2_equivalent
    rw [hm]
    rfl
  · unfold tvoc
    rw [hm]
    rfl

/-- Witness for C6 with CO2-equivalent word 400 and TVOC word 12. -/
theorem iaq_measure_protocol_witness :
    (400 : Nat) < 65536 ∧ (12 : Nat) < 65536 ∧
    (iaq_measure 0x58 (encodeWord 400 ++ encodeWord 12) =
        ([BusOp.write 0x58 [0x20, 0x08], BusOp.sleep 50, BusOp.read 0x58 6],
          Except.ok (some [400, 12])) ∧
      co2_equivalent 0x58 (encodeWord 400 ++ encodeWord 12) = Except.ok 400 ∧
      tvoc 0x58 (encodeWord 400 ++ encodeWord 12) = Except.ok 12) :=
  ⟨by decide, by decide, iaq_measure_protocol 0x58 400 12 (by decide) (by decide)⟩

/-- C7: a successful set-IAQ-baseline transmits to the bus exactly the
opcode `[0x20, 0x1E]` followed by the TVOC word (2 big-endian bytes plus its
checksum) and then the CO2-equivalent word (2 big-endian bytes plus its
checksum) — the reverse of the order in which the baseline getter returns
the pair (the getter yields `[co2, tvoc]` for a reply carrying the CO2 word
first). -/
theorem set_iaq_baseline_payload_order (addr c t : Nat) (h : ¬(c = 0 ∧ t = 0)) :
    (set_iaq_baseline addr c t).1 =
      [BusOp.write addr ([0x20, 0x1e] ++ encodeWord t ++ encodeWord c),
        BusOp.sleep 10] ∧
    (get_iaq_baseline addr (encodeWord c ++ encodeWord t)).2 = Except.ok (some [c, t]) := by
  constructor
  · unfold set_iaq_baseline
    rw [if_neg h]
    unfold read_words_from_cmd
    rw [if_pos rfl]
    simp [List.append_assoc]
  · unfold get_iaq_baseline read_words_from_cmd
    rw [if_neg (by omega), decodeWords_encode_pair]

/-- Witness for C7 with the baseline pair CO2 = 0x8973, TVOC = 0x8AAE. -/
theorem set_iaq_baseline_payload_order_witness :
    ¬((0x8973 : Nat) = 0 ∧ (0x8AAE : Nat) = 0) ∧
    ((set_iaq_baseline 0x58 0x8973 0x8AAE).1 =
        [BusOp.write 0x58 ([0x20, 0x1e] ++ encodeWord 0x8AAE ++ encodeWord 0x8973),
          BusOp.sleep 10] ∧
      (get_iaq_baseline 0x58 (encodeWord 0x8973 ++ encodeWord 0x8AAE)).2 =
        Except.ok (some [0x8973, 0x8AAE])) :=
  ⟨by decide, set_iaq_baseline_payload_order 0x58 0x8973 0x8AAE (by decide)⟩

/-- C9 counterexample: the `SGP30` class never assigns an attribute named
`verified` on an instance (the attributes assigned are `_i2c`, `_addr` and
`serial`), so the handle stores no boolean verified flag. -/
theorem sgp30_no_verified_attribute : "verified" ∉ sgp30_instance_attributes := by
  decide

/-- C9 amended: the handle stores no boolean verified flag (the only
instance attributes assigned are `_i2c`, `_addr`, `serial`); verification is
implicit in construction: a handle is produced only when the feature-set
word read back decodes to `0x0020`, and no attribute named `verified` ever
exists to be reset. -/
theorem sgp30_verification_implicit (addr : Nat) (serialReply featuresetReply : List Nat)
    (s : SGP30State)
    (h : (sgp30_init addr serialReply featuresetReply).2 = Except.ok s) :
    (∃ ws, decodeWords featuresetReply 1 = Except.ok ws ∧ ws.headD 0 = 0x0020) ∧
    "verified" ∉ sgp30_instance_attributes := by
  refine ⟨?_, by decide⟩
  rcases hs : decodeWords serialReply 3 with e | sws
  · simp [sgp30_init, read_words_from_cmd, hs] at h
  · rcases hf : decodeWords featuresetReply 1 with e | fws
    · simp [sgp30_init, read_words_from_cmd, hs, hf] at h
    · by_cases hw : fws.headD 0 = 0x0020
      · exact ⟨fws, rfl, hw⟩
      · rw [List.headD_eq_head?] at hw
        simp [sgp30_init, read_words_from_cmd, hs, hf, hw, _SGP30_FEATURESET] at h

/-- Witness for C9 amended: a successful concrete construction (serial words
all zero, feature-set word `0x0020`). -/
theorem sgp30_verification_implicit_witness :
    (sgp30_init 0x58 (encodeWord 0 ++ encodeWord 0 ++ encodeWord 0)
        (encodeWord 0x0020)).2 = Except.ok { addr := 0x58, serial := some [0, 0, 0] } ∧
    ((∃ ws, decodeWords (encodeWord 0x0020) 1 = Except.ok ws ∧ ws.headD 0 = 0x0020) ∧
      "verified" ∉ sgp30_instance_attributes) :=
  ⟨rfl, sgp30_verification_implicit 0x58 (encodeWord 0 ++ encodeWord 0 ++ encodeWord 0)
    (encodeWord 0x0020) { addr := 0x58, serial := some [0, 0, 0] } rfl⟩
